import Mathlib

/-!
Verification of the candystore data factory (tipresias/candystore).

The Python source is shallowly embedded below.  Randomness is modelled by
passing each random draw as an explicit parameter, constrained to the range
the sampling primitive can actually produce:

* `np.random.permutation(l)` becomes a list `l'` with `l' ~ l` (`List.Perm`);
* `np.random.choice(l)` becomes an element `x` with `x ∈ l`;
* `np.random.randint(a, b)` becomes an integer in `[a, b)`;
* `faker.Faker().date_time_between_dates(s, e)` draws an integer POSIX
  timestamp with `random.randint(s_ts, e_ts)`, which is inclusive of BOTH
  endpoints, so it becomes a second count in the closed interval `[s, e]`.

Dates and datetimes are modelled as integers: a `datetime` is a count of
seconds since 1970-01-01 00:00:00 and a `date` is a count of days since
1970-01-01.  Conversion between civil dates and day counts uses the standard
civil-from-days / days-from-civil algorithms, matching Python's proleptic
Gregorian `datetime`.
-/

namespace Candystore

/-- Day number (days since 1970-01-01) of the proleptic Gregorian civil date
`(y, m, d)`; matches Python `datetime.date(y, m, d)`'s ordinal up to the fixed
epoch offset. -/
def daysFromCivil (y m d : Int) : Int :=
  let yy := if m ≤ 2 then y - 1 else y
  let era := Int.fdiv yy 400
  let yoe := yy - era * 400
  let mp := (m + 9) % 12
  let doy := (153 * mp + 2) / 5 + d - 1
  let doe := yoe * 365 + yoe / 4 - yoe / 100 + doy
  era * 146097 + doe - 719468

/-- Civil year containing the given day number (inverse of `daysFromCivil`);
matches Python `datetime.date.fromordinal(...).year`. -/
def civilYearFromDays (z : Int) : Int :=
  let z' := z + 719468
  let era := Int.fdiv z' 146097
  let doe := z' - era * 146097
  let yoe := (doe - doe / 1460 + doe / 36524 - doe / 146096) / 365
  let y := yoe + era * 400
  let doy := doe - (365 * yoe + yoe / 4 - yoe / 100)
  let mp := (5 * doy + 2) / 153
  let m := if mp < 10 then mp + 3 else mp - 9
  if m ≤ 2 then y + 1 else y

/-- Python `datetime.weekday()`: Monday = 0, ..., Sunday = 6.  Day 0
(1970-01-01) was a Thursday. -/
def pyWeekday (day : Int) : Int := (day + 3) % 7

/- Constants from `candystore/base_data.py`. -/

def FIRST_AFL_SEASON : Int := 1897
def MAR : Int := 3
def FIFTEENTH : Int := 15
def SEP : Int := 9
def THIRTIETH : Int := 30
def WEDNESDAY : Int := 2
def MIN_MATCH_HOUR : Int := 12
def MAX_MATCH_HOUR : Int := 20
def WEEK_IN_DAYS : Int := 7

/-- `CandyStore._generate_season`, date part: `start_date = datetime(season,
MAR, FIFTEENTH)`, `difference_from_wed = WEDNESDAY - start_date.weekday()`,
`season_start = start_date + timedelta(days=difference_from_wed)`.  Returns
the season start as a day number. -/
def seasonStartDay (season : Int) : Int :=
  let startDate := daysFromCivil season MAR FIFTEENTH
  let differenceFromWed := WEDNESDAY - pyWeekday startDate
  startDate + differenceFromWed

/-- `season_end = datetime(season, SEP, THIRTIETH)` as a day number. -/
def seasonEndDay (season : Int) : Int := daysFromCivil season SEP THIRTIETH

/-- `week_count = math.floor((season_end - season_start).days / WEEK_IN_DAYS)`
from `CandyStore._generate_season`.  Both datetimes are at midnight, so the
`.days` difference is exact and the floored float division is floor
division. -/
def weekCount (season : Int) : Int :=
  Int.fdiv (seasonEndDay season - seasonStartDay season) WEEK_IN_DAYS

/-- C3 counterexample: in 2020, March 15 falls on a Sunday (Python weekday 6),
so `difference_from_wed = 2 - 6 = -4` and the computed season start is
March 11, 2020 — a day strictly BEFORE March 15, contradicting the claim that
the season start is a Wednesday on-or-after March 15. -/
theorem seasonStart_2020_before_march15 :
    pyWeekday (daysFromCivil 2020 3 15) = 6 ∧
    seasonStartDay 2020 < daysFromCivil 2020 3 15 := by
  constructor <;> decide

/-- C3 (amended): for every season year, the computed season start is the
Wednesday of the Monday-based calendar week containing March 15 — it is a
Wednesday and lies in the interval [March 11, March 17] (i.e. within 4 days
before and 2 days after March 15) — and the season's round count equals
floor((September 30 minus the season start) / 7 days). -/
theorem seasonStart_wednesday_of_week (season : Int) :
    pyWeekday (seasonStartDay season) = WEDNESDAY ∧
    daysFromCivil season MAR FIFTEENTH - 4 ≤ seasonStartDay season ∧
    seasonStartDay season ≤ daysFromCivil season MAR FIFTEENTH + 2 ∧
    weekCount season =
      Int.fdiv (seasonEndDay season - seasonStartDay season) WEEK_IN_DAYS := by
  refine ⟨?_, ?_, ?_, rfl⟩ <;>
    · simp only [seasonStartDay, pyWeekday, WEDNESDAY]
      omega

/-! ### Match results round types (`candystore/match_results.py`) -/

def FINALS_ROUND_LABELS : List String := ["QF", "EF", "SF", "PF", "GF"]

/-- Python `range(a, b)` over integers, as a list. -/
def intRange (a b : Int) : List Int :=
  (List.range (b - a).toNat).map (fun i : Nat => a + (i : Int))

/-- `_season_round_type_map`: the keys of the `{round_number: "Finals"}`
dictionary, i.e. `range(max_round - len(FINALS_ROUND_LABELS) + 2,
max_round + 1)`. -/
def finalsRoundNumbers (maxRound : Int) : List Int :=
  intRange (maxRound - (FINALS_ROUND_LABELS.length : Int) + 2) (maxRound + 1)

/-- The per-round lookup `finals_round_map.get(round) or "Regular"` from
`_map_round_type_per_season`: every key of the map carries the value
`"Finals"`, and a missing key falls through to `"Regular"`. -/
def roundTypeOf (maxRound round : Int) : String :=
  if round ∈ finalsRoundNumbers maxRound then "Finals" else "Regular"

/-- `season_group["round"].max()` for a non-empty group (pandas max). -/
def seasonMaxRound (rounds : List Int) : Int :=
  match rounds with
  | [] => 0
  | r :: rs => rs.foldl max r

/-- `_map_round_type_per_season`: maps each round of one season's group
through the finals map keyed to that season's maximum round. -/
def mapRoundTypePerSeason (rounds : List Int) : List String :=
  rounds.map (roundTypeOf (seasonMaxRound rounds))

theorem mem_intRange {a b r : Int} : r ∈ intRange a b ↔ a ≤ r ∧ r < b := by
  simp only [intRange, List.mem_map, List.mem_range]
  constructor
  · rintro ⟨i, hi, rfl⟩
    omega
  · intro h
    exact ⟨(r - a).toNat, by omega, by omega⟩

set_option maxRecDepth 4000 in
/-- C2 counterexample: in a 28-round season (the round count the generator
actually produces), the final five round numbers are 24..28, yet round 24 is
mapped to "Regular": the finals map only covers `range(28 - 5 + 2, 29)` =
the set of 25, 26, 27, 28 — four rounds, not five. -/
theorem roundType_final_five_counterexample :
    seasonMaxRound (intRange 1 29) = 28 ∧
    (28 : Int) - 5 + 1 ≤ 24 ∧ (24 : Int) ≤ 28 ∧
    roundTypeOf 28 24 = "Regular" := by
  refine ⟨by decide, by decide, by decide, ?_⟩
  decide

/-- C2 (amended): for every season group, the `round_type` column maps
exactly the final FOUR round numbers of that season (those `r` with
`max_round - 3 ≤ r ≤ max_round`, determined by the maximum round number of
the group) to "Finals", and every other round number to "Regular". -/
theorem roundType_finals_iff_final_four (rounds : List Int) :
    mapRoundTypePerSeason rounds = rounds.map (fun r =>
      if seasonMaxRound rounds - 3 ≤ r ∧ r ≤ seasonMaxRound rounds
      then "Finals" else "Regular") := by
  unfold mapRoundTypePerSeason
  congr 1
  funext r
  simp only [roundTypeOf, finalsRoundNumbers, mem_intRange, FINALS_ROUND_LABELS,
    List.length_cons, List.length_nil]
  exact if_congr (by constructor <;> (intro h; push_cast at h ⊢; omega)) rfl rfl

/-! ### Betting odds (`candystore/betting_odds.py`) -/

def BASELINE_BET_PAYOUT : ℚ := 192 / 100
def WIN_ODDS_MULTIPLIER : ℚ := 8 / 10

/-- One row of `convert_to_betting_odds`, restricted to the numeric columns
the transform adds to the base match data. -/
structure BettingRow where
  home_score : Int
  away_score : Int
  home_margin : Int
  away_margin : Int
  home_win_odds : ℚ
  away_win_odds : ℚ
  home_win_paid : ℚ
  away_win_paid : ℚ
  home_line_odds : Int
  away_line_odds : Int
  home_line_paid : ℚ
  away_line_paid : ℚ
deriving DecidableEq, Repr

/-- `convert_to_betting_odds`, per match.  The random draws are parameters:
`homeScore`, `awayScore` from `randint(*REASONABLE_SCORE_RANGE)`,
`homeLineOdds` from `randint(*REASONABLE_MARGIN_RANGE)`, and `winOddsDiff`
the rounded `rand() * WIN_ODDS_MULTIPLIER` value. -/
def convertToBettingOdds (homeScore awayScore homeLineOdds : Int)
    (winOddsDiff : ℚ) : BettingRow :=
  let homeWinOddsDiff := if homeLineOdds > 0 then winOddsDiff else -winOddsDiff
  let homeWinOdds := BASELINE_BET_PAYOUT + homeWinOddsDiff
  let awayWinOdds := BASELINE_BET_PAYOUT - homeWinOddsDiff
  { home_score := homeScore
    away_score := awayScore
    home_margin := homeScore - awayScore
    away_margin := awayScore - homeScore
    home_win_odds := homeWinOdds
    away_win_odds := awayWinOdds
    home_win_paid := homeWinOdds * (if homeScore > awayScore then 1 else 0)
    away_win_paid := awayWinOdds * (if awayScore > homeScore then 1 else 0)
    home_line_odds := homeLineOdds
    away_line_odds := homeLineOdds * -1
    home_line_paid := BASELINE_BET_PAYOUT * (if homeScore > awayScore then 1 else 0)
    away_line_paid := BASELINE_BET_PAYOUT * (if awayScore > homeScore then 1 else 0) }

/-- C4 counterexample: a match the home side won (100 > 50) with
`home_line_odds = 33`, drawn from the ranges the code actually samples.
The claim says `home_line_paid` should equal `home_line_odds = 33`, but the
code pays `BASELINE_BET_PAYOUT = 1.92`. -/
theorem linePaid_not_lineOdds :
    (convertToBettingOdds 100 50 33 (1/2)).home_score >
      (convertToBettingOdds 100 50 33 (1/2)).away_score ∧
    (convertToBettingOdds 100 50 33 (1/2)).home_line_odds = 33 ∧
    (convertToBettingOdds 100 50 33 (1/2)).home_line_paid = 192 / 100 ∧
    (convertToBettingOdds 100 50 33 (1/2)).home_line_paid ≠
      ((convertToBettingOdds 100 50 33 (1/2)).home_line_odds : ℚ) := by
  refine ⟨by norm_num [convertToBettingOdds], by norm_num [convertToBettingOdds],
    by norm_num [convertToBettingOdds, BASELINE_BET_PAYOUT],
    by norm_num [convertToBettingOdds, BASELINE_BET_PAYOUT]⟩

/-- C4 (amended): `home_win_paid`/`away_win_paid` equal the corresponding win
odds when that side's score is strictly greater, else 0; but
`home_line_paid`/`away_line_paid` equal the constant `BASELINE_BET_PAYOUT`
(1.92) when that side's score is strictly greater, else 0 — they never pay
the line odds themselves. -/
theorem paid_fields_settlement (hs as hlo : Int) (d : ℚ) :
    (convertToBettingOdds hs as hlo d).home_win_paid =
      (if hs > as then (convertToBettingOdds hs as hlo d).home_win_odds else 0) ∧
    (convertToBettingOdds hs as hlo d).away_win_paid =
      (if as > hs then (convertToBettingOdds hs as hlo d).away_win_odds else 0) ∧
    (convertToBettingOdds hs as hlo d).home_line_paid =
      (if hs > as then BASELINE_BET_PAYOUT else 0) ∧
    (convertToBettingOdds hs as hlo d).away_line_paid =
      (if as > hs then BASELINE_BET_PAYOUT else 0) := by
  simp only [convertToBettingOdds]
  refine ⟨?_, ?_, ?_, ?_⟩ <;> (repeat' split) <;> ring

/-! ### Player start times (`candystore/players.py`, `_parse_player_start_time`) -/

/-- Number of characters in Python `str(n)` for a natural number `n`
(no sign, no padding). -/
def decimalDigitCount (n : Nat) : Nat := (Nat.toDigits 10 n).length

/-- `_parse_player_start_time`: the integer obtained by parsing the decimal
string `str(hour) + str(minute)` — the hour's digits followed by the
minute's digits with NO zero padding. -/
def parsePlayerStartTime (hour minute : Nat) : Nat :=
  hour * 10 ^ decimalDigitCount minute + minute

/-- C9 code bug: for a match kicking off at 14:05 (hour 14, minute 5 — a
reachable kickoff time, since kickoff hours range over 12..20 and minutes
over 0..59), the code produces `int("14" + "5") = 145`, not the claimed
24-hour "HHMM" encoding `100 * 14 + 5 = 1405`.  The code's own comment says
the field has `'hhmm'` form, which requires zero-padded minutes. -/
theorem parsePlayerStartTime_no_zero_padding :
    parsePlayerStartTime 14 5 = 145 ∧ parsePlayerStartTime 14 5 ≠ 100 * 14 + 5 := by
  constructor <;> decide

/-! ### Player team scores (`candystore/players.py`, `convert_to_players`) -/

/-- The quarter-by-quarter score columns `convert_to_players` adds to one
match's row. -/
structure PlayerScoreColumns where
  hq1g : Nat
  hq1b : Nat
  hq2g : Nat
  hq2b : Nat
  hq3g : Nat
  hq3b : Nat
  hq4g : Nat
  hq4b : Nat
  home_score : Nat
  aq1g : Nat
  aq1b : Nat
  aq2g : Nat
  aq2b : Nat
  aq3g : Nat
  aq3b : Nat
  aq4g : Nat
  aq4b : Nat
  away_score : Nat
deriving DecidableEq, Repr

/-- `_calculate_quarter_values` per match: each quarter's value is an
independently drawn full-match count divided by 4 and truncated
(`(randint / 4).astype(int)`). -/
def calculateQuarterValue (raw : Nat) : Nat := raw / 4

/-- The score columns of `convert_to_players` for one match.  `hg`, `hb`,
`ag`, `ab` are the four raw quarter draws for home goals, home behinds,
away goals and away behinds.  Mirrors the source exactly: in particular
`away_score` is computed from `home_quarter_goals` and
`home_quarter_behinds` (lines 302-303 of players.py), not from the away
quarter values. -/
def playerScoreColumns (hg hb ag ab : Fin 4 → Nat) : PlayerScoreColumns :=
  let hqg := fun q : Fin 4 => calculateQuarterValue (hg q)
  let hqb := fun q : Fin 4 => calculateQuarterValue (hb q)
  let aqg := fun q : Fin 4 => calculateQuarterValue (ag q)
  let aqb := fun q : Fin 4 => calculateQuarterValue (ab q)
  { hq1g := hqg 0, hq1b := hqb 0
    hq2g := hqg 1, hq2b := hqb 1
    hq3g := hqg 2, hq3b := hqb 2
    hq4g := hqg 3, hq4b := hqb 3
    home_score := (hqg 0 + hqg 1 + hqg 2 + hqg 3) * 6 + (hqb 0 + hqb 1 + hqb 2 + hqb 3)
    aq1g := aqg 0, aq1b := aqb 0
    aq2g := aqg 1, aq2b := aqb 1
    aq3g := aqg 2, aq3b := aqb 2
    aq4g := aqg 3, aq4b := aqb 3
    away_score := (hqg 0 + hqg 1 + hqg 2 + hqg 3) * 6 + (hqb 0 + hqb 1 + hqb 2 + hqb 3) }

/-- C5 code bug: with raw quarter draws inside the sampled ranges (goals in
[2, 22], behinds in [3, 21]) giving home quarter values (3,2,1,3) goals /
(3,1,5,4) behinds and away quarter values (1,5,0,2) goals / (2,1,1,1)
behinds, the claimed away score is 6*8 + 5 = 53, but the code computes
`away_score` from the HOME quarter sums, yielding 67 (= home_score).  The
away quarter arrays are computed and then ignored for the score — a
copy-paste slip. -/
theorem awayScore_uses_home_quarters :
    (playerScoreColumns ![12, 8, 4, 12] ![12, 4, 20, 16] ![4, 20, 2, 8] ![8, 4, 4, 4]).home_score = 67 ∧
    (playerScoreColumns ![12, 8, 4, 12] ![12, 4, 20, 16] ![4, 20, 2, 8] ![8, 4, 4, 4]).away_score = 67 ∧
    6 * ((playerScoreColumns ![12, 8, 4, 12] ![12, 4, 20, 16] ![4, 20, 2, 8] ![8, 4, 4, 4]).aq1g +
         (playerScoreColumns ![12, 8, 4, 12] ![12, 4, 20, 16] ![4, 20, 2, 8] ![8, 4, 4, 4]).aq2g +
         (playerScoreColumns ![12, 8, 4, 12] ![12, 4, 20, 16] ![4, 20, 2, 8] ![8, 4, 4, 4]).aq3g +
         (playerScoreColumns ![12, 8, 4, 12] ![12, 4, 20, 16] ![4, 20, 2, 8] ![8, 4, 4, 4]).aq4g) +
        ((playerScoreColumns ![12, 8, 4, 12] ![12, 4, 20, 16] ![4, 20, 2, 8] ![8, 4, 4, 4]).aq1b +
         (playerScoreColumns ![12, 8, 4, 12] ![12, 4, 20, 16] ![4, 20, 2, 8] ![8, 4, 4, 4]).aq2b +
         (playerScoreColumns ![12, 8, 4, 12] ![12, 4, 20, 16] ![4, 20, 2, 8] ![8, 4, 4, 4]).aq3b +
         (playerScoreColumns ![12, 8, 4, 12] ![12, 4, 20, 16] ![4, 20, 2, 8] ![8, 4, 4, 4]).aq4b) = 53 := by
  refine ⟨by decide, by decide, by decide⟩

/-! ### Teams and the schedule generator (`candystore/base_data.py`) -/

def NON_BRISBANE_TEAMS : List String :=
  ["Richmond", "Carlton", "Melbourne", "Greater Western Sydney", "Essendon",
   "Sydney", "Collingwood", "North Melbourne", "Western Bulldogs", "Fremantle",
   "Port Adelaide", "St Kilda", "Hawthorn", "Adelaide", "Gold Coast",
   "Geelong", "West Coast", "Fitzroy", "University"]

def BRISBANE_TEAMS : List String := ["Brisbane Bears", "Brisbane Lions"]

/-- `_generate_teams`: `NON_BRISBANE_TEAMS + [np.random.choice(BRISBANE_TEAMS)]`,
for a chosen Brisbane team `b`.  The subsequent `np.random.permutation` is
modelled by quantifying over lists `Perm`-equivalent to this one. -/
def validTeams (b : String) : List String := NON_BRISBANE_TEAMS ++ [b]

/-- `match_count = math.floor(team_count / 2)` with
`team_count = len(NON_BRISBANE_TEAMS) + 1` (from `_generate_round`). -/
def matchCount : Nat := (NON_BRISBANE_TEAMS.length + 1) / 2

/-- One Base Match Record.  `date` is a POSIX-second count, `season` a
year. -/
structure BaseMatch where
  date : Int
  season : Int
  round : Int
  home_team : String
  away_team : String
  venue : String
deriving DecidableEq, Repr

/-- `CandyStore._match_date_time`: Faker draws a uniform POSIX second
`raw_match_date_time` in the CLOSED interval
`[round_start, round_start + 7 days]` (Faker's `date_time_between_dates`
uses `random.randint`, inclusive of both endpoints), then draws a
time-of-day in the closed interval `[12:00:00, 20:00:00]` of the same day
and `replace`s the hour/minute/second of the raw draw with it.  `rawOffsetSeconds`
is the first draw's offset from the round start (valid range `[0, 604800]`)
and `timeOfDaySeconds` the second draw (valid range `[43200, 72000]`). -/
def matchDateTime (roundStartDay rawOffsetSeconds timeOfDaySeconds : Int) : Int :=
  let rawSeconds := roundStartDay * 86400 + rawOffsetSeconds
  Int.fdiv rawSeconds 86400 * 86400 + timeOfDaySeconds

/-- `CandyStore._generate_match`: builds one Base Match Record; `season` is
the year of the generated match datetime. -/
def generateMatch (roundNumber roundStartDay rawOff tod : Int)
    (teams : String × String) (venue : String) : BaseMatch :=
  let dt := matchDateTime roundStartDay rawOff tod
  { date := dt
    season := civilYearFromDays (Int.fdiv dt 86400)
    round := roundNumber
    home_team := teams.1
    away_team := teams.2
    venue := venue }

/-- Consecutive pairing of the permuted team stream:
`teams=(next(teams), next(teams))` per match in `_generate_round`. -/
def pairUp : List String → List (String × String)
  | a :: b :: rest => (a, b) :: pairUp rest
  | _ => []

/-- The match-building loop of `_generate_round`: one match per team pair,
consuming one venue from the permuted venue stream and one pair of datetime
draws per match. -/
def generateRoundAux (roundNumber roundStartDay : Int) :
    List (String × String) → List String → List (Int × Int) → List BaseMatch
  | tp :: tps, v :: vs, dr :: drs =>
      generateMatch roundNumber roundStartDay dr.1 dr.2 tp v ::
        generateRoundAux roundNumber roundStartDay tps vs drs
  | _, _, _ => []

/-- `CandyStore._generate_round`: `round_start = season_start + 7 * week`
(in days), `round_number = week + 1`; teams are paired consecutively from the
permuted 20-team stream, so the loop's `match_count` iterations (10) consume
exactly the 10 pairs `pairUp teams` yields when `teams` has 20 elements.
`venues` is the permuted venue catalog (67 entries in the source, so always
at least `matchCount`) and `draws` the per-match datetime draws. -/
def generateRound (ssd : Int) (week : Nat) (teams venues : List String)
    (draws : List (Int × Int)) : List BaseMatch :=
  generateRoundAux ((week : Int) + 1) (ssd + 7 * (week : Int))
    (pairUp teams) venues draws

/-- All home/away team slots of a round's matches, in order. -/
def roundTeams (ms : List BaseMatch) : List String :=
  ms.flatMap fun m => [m.home_team, m.away_team]

theorem pairUp_length : ∀ l : List String, (pairUp l).length = l.length / 2
  | [] => by simp [pairUp]
  | [_] => by simp [pairUp]
  | _ :: _ :: rest => by
    simp only [pairUp, List.length_cons]
    rw [pairUp_length rest]
    omega

theorem pairUp_flatMap : ∀ l : List String, l.length % 2 = 0 →
    (pairUp l).flatMap (fun p => [p.1, p.2]) = l
  | [], _ => rfl
  | [_], h => by simp at h
  | a :: b :: rest, h => by
    simp only [pairUp, List.flatMap_cons]
    rw [pairUp_flatMap rest (by simp only [List.length_cons] at h; omega)]
    rfl

theorem generateRoundAux_teams (n s : Int) (tps : List (String × String)) :
    ∀ (vs : List String) (drs : List (Int × Int)),
      tps.length ≤ vs.length → tps.length ≤ drs.length →
      roundTeams (generateRoundAux n s tps vs drs) =
        tps.flatMap (fun p => [p.1, p.2]) := by
  induction tps with
  | nil =>
    intro vs drs _ _
    cases vs <;> cases drs <;> rfl
  | cons tp tps ih =>
    intro vs drs hv hd
    cases vs with
    | nil => simp at hv
    | cons v vs =>
      cases drs with
      | nil => simp at hd
      | cons dr drs =>
        simp only [generateRoundAux, roundTeams, List.flatMap_cons]
        have h := ih vs drs (by simp only [List.length_cons] at hv; omega)
          (by simp only [List.length_cons] at hd; omega)
        simp only [roundTeams] at h
        rw [h]
        rfl

/-- C1: for any round generated by `_generate_round` — from any Brisbane
choice `b`, any permutation `teams` of the 20-team universe
`NON_BRISBANE_TEAMS + [b]`, any venue stream and any datetime draws long
enough for the loop — no team name appears more than once across the
`home_team`/`away_team` slots of the round's matches, and every
special-subgroup (Brisbane) name appearing in a slot equals the single
chosen team `b`, so at most one of the two Brisbane names appears.  Every
`(season, round)` group of the generated data is exactly one such round:
rounds of one season carry distinct round numbers and their dates stay
inside the season year, so distinct generated rounds never merge. -/
theorem generateRound_team_invariant (b : String) (teams venues : List String)
    (draws : List (Int × Int)) (ssd : Int) (week : Nat)
    (hb : b ∈ BRISBANE_TEAMS) (hperm : teams.Perm (validTeams b))
    (hv : matchCount ≤ venues.length) (hd : matchCount ≤ draws.length) :
    (roundTeams (generateRound ssd week teams venues draws)).Nodup ∧
    ∀ t ∈ roundTeams (generateRound ssd week teams venues draws),
      t ∈ BRISBANE_TEAMS → t = b := by
  have hmc : matchCount = 10 := by decide
  have hlen : teams.length = 20 := by
    have h := hperm.length_eq
    simpa [validTeams, NON_BRISBANE_TEAMS] using h
  have hpl : (pairUp teams).length = 10 := by rw [pairUp_length, hlen]
  have hteams : roundTeams (generateRound ssd week teams venues draws) = teams := by
    unfold generateRound
    rw [generateRoundAux_teams _ _ _ _ _ (by omega) (by omega),
      pairUp_flatMap teams (by omega)]
  rw [hteams]
  have hbn : b ∉ NON_BRISBANE_TEAMS := by
    rcases (by simpa [BRISBANE_TEAMS] using hb :
        b = "Brisbane Bears" ∨ b = "Brisbane Lions") with rfl | rfl <;> decide
  constructor
  · refine hperm.nodup_iff.mpr ?_
    simp only [validTeams, List.nodup_append, List.nodup_cons, List.nodup_nil]
    refine ⟨by decide, ⟨by simp, trivial⟩, by simpa using hbn⟩
  · intro t ht htb
    have hmem : t ∈ validTeams b := hperm.mem_iff.mp ht
    rcases List.mem_append.mp hmem with h | h
    · exfalso
      rcases (by simpa [BRISBANE_TEAMS] using htb :
          t = "Brisbane Bears" ∨ t = "Brisbane Lions") with rfl | rfl <;>
        revert h <;> decide
    · simpa using h

/-- C1 witness: the invariant instantiated at the identity permutation with
Brisbane Lions chosen, a concrete venue stream and concrete datetime
draws. -/
theorem generateRound_team_invariant_witness :
    "Brisbane Lions" ∈ BRISBANE_TEAMS ∧
    (validTeams "Brisbane Lions").Perm (validTeams "Brisbane Lions") ∧
    matchCount ≤ (List.replicate 10 "Gabba").length ∧
    matchCount ≤ (List.replicate 10 ((0 : Int), (43200 : Int))).length ∧
    ((roundTeams (generateRound 0 0 (validTeams "Brisbane Lions")
        (List.replicate 10 "Gabba")
        (List.replicate 10 ((0 : Int), (43200 : Int))))).Nodup ∧
      ∀ t ∈ roundTeams (generateRound 0 0 (validTeams "Brisbane Lions")
          (List.replicate 10 "Gabba")
          (List.replicate 10 ((0 : Int), (43200 : Int)))),
        t ∈ BRISBANE_TEAMS → t = "Brisbane Lions") :=
  ⟨by decide, List.Perm.refl _, by decide, by decide,
    generateRound_team_invariant "Brisbane Lions" (validTeams "Brisbane Lions")
      (List.replicate 10 "Gabba") (List.replicate 10 ((0 : Int), (43200 : Int)))
      0 0 (by decide) (List.Perm.refl _) (by decide) (by decide)⟩

/-- C7 code bug: dates do NOT always strictly increase with round number.
Faker's `date_time_between_dates` is inclusive of its end instant, so a
round-1 match can draw exactly `round_start + 7 days` (raw offset 604800
seconds, a valid draw) and have its kickoff time set to 20:00 on the first
day of round 2's window, while a round-2 match draws offset 0 with kickoff
12:00 on that same day.  The round-1 match is then dated AFTER the round-2
match, contradicting the claim (and the repository's own
`test_date_round_compatibility`, which asserts that per-season date order
matches round order). -/
theorem round_date_order_violation :
    (generateMatch 1 (seasonStartDay 2021 + 7 * 0) 604800 72000
      ("Richmond", "Carlton") "M.C.G.").round = 1 ∧
    (generateMatch 2 (seasonStartDay 2021 + 7 * 1) 0 43200
      ("Melbourne", "Geelong") "Docklands").round = 2 ∧
    (generateMatch 1 (seasonStartDay 2021 + 7 * 0) 604800 72000
      ("Richmond", "Carlton") "M.C.G.").season = 2021 ∧
    (generateMatch 2 (seasonStartDay 2021 + 7 * 1) 0 43200
      ("Melbourne", "Geelong") "Docklands").season = 2021 ∧
    (generateMatch 2 (seasonStartDay 2021 + 7 * 1) 0 43200
      ("Melbourne", "Geelong") "Docklands").date <
      (generateMatch 1 (seasonStartDay 2021 + 7 * 0) 604800 72000
        ("Richmond", "Carlton") "M.C.G.").date := by
  refine ⟨rfl, rfl, by decide, by decide, by decide⟩

/-! ### Season range resolver (`CandyStore._tuple_season_range`) -/

/-- `CandyStore._tuple_season_range`: the three `assert`s in source order
(arity, bounds, order), then `range(*seasons)`.  A failed `assert` raises
`AssertionError` (a validation-type error), modelled as `Except.error`;
`CandyStore.__init__` builds the full base-match table eagerly, so this
resolver runs — and any of its failures is raised — during construction. -/
def tupleSeasonRange (seasons : List Int) (currentYear : Int) :
    Except String (List Int) :=
  match seasons with
  | [a, b] =>
    if FIRST_AFL_SEASON ≤ min a b ∧ max a b ≤ currentYear + 1 then
      if a < b then Except.ok (intRange a b)
      else Except.error
        "First season must be less than second to create a valid range."
    else Except.error
      "Provided seasons must be in the valid range to generate valid data."
  | _ => Except.error "Must provide two seasons to have a valid range."

/-- Whether season resolution succeeded. -/
def resolvedOk : Except String (List Int) → Bool
  | Except.ok _ => true
  | Except.error _ => false

/-- C6: a tuple season specification `(a, b)` is rejected exactly when the
arity is not 2 (empty, singleton, or three-plus element cases), or
`min(a,b) < FIRST_AFL_SEASON`, or `max(a,b) > current_year + 1`, or
`a ≥ b`; and on success the resolved season sequence is exactly the
half-open range `[a, b)`. -/
theorem tupleSeasonRange_validation_spec (a b x y z cy : Int) (rest : List Int) :
    (resolvedOk (tupleSeasonRange [a, b] cy) = true ↔
      FIRST_AFL_SEASON ≤ min a b ∧ max a b ≤ cy + 1 ∧ a < b) ∧
    (tupleSeasonRange [a, b] cy = Except.ok (intRange a b) ∨
      ¬ (FIRST_AFL_SEASON ≤ min a b ∧ max a b ≤ cy + 1 ∧ a < b)) ∧
    resolvedOk (tupleSeasonRange [] cy) = false ∧
    resolvedOk (tupleSeasonRange [x] cy) = false ∧
    resolvedOk (tupleSeasonRange (x :: y :: z :: rest) cy) = false := by
  refine ⟨?_, ?_, rfl, rfl, rfl⟩
  · simp only [tupleSeasonRange]
    split
    case isTrue h1 =>
      split
      case isTrue h2 => exact iff_of_true rfl ⟨h1.1, h1.2, h2⟩
      case isFalse h2 =>
        refine iff_of_false (by simp [resolvedOk]) ?_
        rintro ⟨-, -, hab⟩
        exact h2 hab
    case isFalse h1 =>
      refine iff_of_false (by simp [resolvedOk]) ?_
      rintro ⟨ha, hb, -⟩
      exact h1 ⟨ha, hb⟩
  · by_cases h1 : FIRST_AFL_SEASON ≤ min a b ∧ max a b ≤ cy + 1
    · by_cases h2 : a < b
      · left
        simp [tupleSeasonRange, h1, h2]
      · right
        tauto
    · right
      tauto

/-! ### Players roster rows (`candystore/players.py`) -/

def N_PLAYERS_PER_TEAM : Nat := 22

/-- One roster row of `_generate_players`, restricted to the key columns:
the `match_id` join key, the player `id`, and `playing_for`.  The ~25
independently sampled stat counters and the synthetic names do not affect
row counts or ids and are omitted. -/
structure PlayerRosterRow where
  match_id : Nat
  id : Nat
  playing_for : String
deriving DecidableEq, Repr

/-- `_generate_players`: 22 rows for one side of one match;
`id = np.array(range(N_PLAYERS_PER_TEAM)) + player_match_index *
N_PLAYERS_PER_TEAM * 2`.  The team column is the only side-dependent
field — the id formula does not mention the side. -/
def generatePlayers (playerMatchIndex : Nat) (team : String) :
    List PlayerRosterRow :=
  (List.range N_PLAYERS_PER_TEAM).map fun j =>
    { match_id := playerMatchIndex
      id := j + playerMatchIndex * N_PLAYERS_PER_TEAM * 2
      playing_for := team }

/-- `_generate_match_players`: the home-side then away-side rosters of one
match. -/
def generateMatchPlayers (idx : Nat) (homeTeam awayTeam : String) :
    List (List PlayerRosterRow) :=
  [generatePlayers idx homeTeam, generatePlayers idx awayTeam]

/-- The `pd.concat(chain.from_iterable([_generate_match_players(idx, row)
for idx, row in player_match_data.iterrows()]))` step of
`convert_to_players`, generalized over the starting index `k` of the
enumeration (`k = 0` in the source; `match_id` comes from `reset_index`, a
0-based positional index). -/
def playerDataFrom (k : Nat) (ms0 : List (String × String)) :
    List PlayerRosterRow :=
  ((List.enumFrom k ms0).map
    (fun im => generateMatchPlayers im.1 im.2.1 im.2.2)).flatten.flatten

/-- The concatenated per-player rows for a base-match list (home/away team
pairs), as built by `convert_to_players`. -/
def playerData (ms0 : List (String × String)) : List PlayerRosterRow :=
  playerDataFrom 0 ms0

/-- `player_match_data.merge(player_data, how="right", on="match_id")`:
for each right-hand (player) row, one output row per matching left-hand
`match_id`, or the bare right row when no key matches. -/
def mergeRightRows (leftIds : List Nat) (pdata : List PlayerRosterRow) :
    List PlayerRosterRow :=
  pdata.flatMap fun pr =>
    match leftIds.filter (fun i => i = pr.match_id) with
    | [] => [pr]
    | l => l.map (fun _ => pr)

/-- `convert_to_players`, row skeleton: the left table has one row per base
match (`match_id` 0..M-1 after `reset_index`), right-joined with the player
rows. -/
def playersView (ms0 : List (String × String)) : List PlayerRosterRow :=
  mergeRightRows (List.range ms0.length) (playerData ms0)

theorem playerDataFrom_cons (k : Nat) (m : String × String)
    (ms : List (String × String)) :
    playerDataFrom k (m :: ms) =
      generatePlayers k m.1 ++ (generatePlayers k m.2 ++ playerDataFrom (k + 1) ms) := by
  simp [playerDataFrom, List.enumFrom, generateMatchPlayers]

theorem playerDataFrom_filter (i : Nat) :
    ∀ (k : Nat) (ms : List (String × String)),
      ((playerDataFrom k ms).filter (fun pr => pr.match_id = i)).length =
        if k ≤ i ∧ i < k + ms.length then 44 else 0 := by
  intro k ms
  induction ms generalizing k with
  | nil =>
    simp [playerDataFrom]
    rw [if_neg (by omega)]
  | cons m ms ih =>
    rw [playerDataFrom_cons]
    simp only [List.filter_append, List.length_append, ih (k + 1)]
    by_cases hik : i = k
    · subst hik
      have hg : ∀ t : String, ((generatePlayers i t).filter
          (fun pr => pr.match_id = i)).length = 22 := by
        intro t
        simp [generatePlayers, List.filter_map, Function.comp_def, N_PLAYERS_PER_TEAM]
      rw [hg, hg]
      simp only [List.length_cons]
      have hno : ¬ (i + 1 ≤ i ∧ i < i + 1 + ms.length) := by omega
      rw [if_neg hno, if_pos (by omega)]
    · have hg : ∀ t : String, ((generatePlayers k t).filter
          (fun pr => pr.match_id = i)).length = 0 := by
        intro t
        simp [generatePlayers, List.filter_map, Function.comp_def, hik,
          N_PLAYERS_PER_TEAM]
        omega
      rw [hg, hg]
      simp only [List.length_cons]
      by_cases hcase : k + 1 ≤ i ∧ i < k + 1 + ms.length
      · rw [if_pos hcase, if_pos (by omega)]
      · rw [if_neg hcase, if_neg (by omega)]

theorem playerDataFrom_length :
    ∀ (k : Nat) (ms : List (String × String)),
      (playerDataFrom k ms).length = 44 * ms.length := by
  intro k ms
  induction ms generalizing k with
  | nil => simp [playerDataFrom]
  | cons m ms ih =>
    rw [playerDataFrom_cons]
    simp [generatePlayers, ih (k + 1), N_PLAYERS_PER_TEAM]
    ring

theorem playerDataFrom_matchId_mem {pr : PlayerRosterRow} :
    ∀ (k : Nat) (ms : List (String × String)), pr ∈ playerDataFrom k ms →
      k ≤ pr.match_id ∧ pr.match_id < k + ms.length := by
  intro k ms
  induction ms generalizing k with
  | nil => simp [playerDataFrom]
  | cons m ms ih =>
    rw [playerDataFrom_cons]
    intro hmem
    rcases List.mem_append.mp hmem with h | h
    · simp [generatePlayers] at h
      obtain ⟨j, hj, rfl⟩ := h
      simp
    · rcases List.mem_append.mp h with h' | h'
      · simp [generatePlayers] at h'
        obtain ⟨j, hj, rfl⟩ := h'
        simp
      · have := ih (k + 1) h'
        simp only [List.length_cons]
        omega

theorem filter_range_eq_singleton {M k : Nat} (h : k < M) :
    ((List.range M).filter (fun i => i = k)).length = 1 := by
  induction M with
  | zero => omega
  | succ n ih =>
    rw [List.range_succ, List.filter_append]
    by_cases hk : k = n
    · subst hk
      have h0 : ((List.range k).filter (fun i => i = k)).length = 0 := by
        simp only [List.length_eq_zero, List.filter_eq_nil_iff]
        intro a ha
        simp only [List.mem_range] at ha
        simp
        omega
      simp [h0]
    · have h1 : k < n := by omega
      rw [List.length_append, ih h1]
      have hnk : ¬ n = k := by omega
      simp [hnk]

theorem mergeRightRows_eq (leftIds : List Nat) :
    ∀ pdata : List PlayerRosterRow,
      (∀ pr ∈ pdata, (leftIds.filter (fun i => i = pr.match_id)).length = 1) →
      mergeRightRows leftIds pdata = pdata := by
  intro pdata h
  induction pdata with
  | nil => rfl
  | cons pr pdata ih =>
    simp only [mergeRightRows, List.flatMap_cons]
    obtain ⟨u, hu⟩ := List.length_eq_one.mp (h pr (by simp))
    rw [hu]
    have htail := ih (fun q hq => h q (by simp [hq]))
    simp only [mergeRightRows] at htail
    rw [htail]
    simp

/-- C8: for a base schedule of `M` matches, the players view has exactly
`44 * M` rows — and each match context contributes exactly 44 of them (22
player rows per side, two sides): every player row's `match_id` hits exactly
one row of the left (match) table, so the right join neither drops nor
duplicates player rows. -/
theorem playersView_row_count (ms : List (String × String)) (i : Nat)
    (hi : i < ms.length) :
    (playersView ms).length = 44 * ms.length ∧
    ((playersView ms).filter (fun pr => pr.match_id = i)).length = 44 := by
  have hview : playersView ms = playerData ms := by
    apply mergeRightRows_eq
    intro pr hpr
    have hb := playerDataFrom_matchId_mem 0 ms hpr
    exact filter_range_eq_singleton (by omega)
  rw [hview]
  constructor
  · exact playerDataFrom_length 0 ms
  · have hpd : playerData ms = playerDataFrom 0 ms := rfl
    rw [hpd, playerDataFrom_filter i 0 ms, if_pos (by omega)]

/-- C8 witness: a one-match schedule yields exactly 44 player rows, all
with `match_id = 0`. -/
theorem playersView_row_count_witness :
    (0 : Nat) < ([("Richmond", "Carlton")] : List (String × String)).length ∧
    ((playersView [("Richmond", "Carlton")]).length =
        44 * ([("Richmond", "Carlton")] : List (String × String)).length ∧
      ((playersView [("Richmond", "Carlton")]).filter
        (fun pr => pr.match_id = 0)).length = 44) :=
  ⟨by decide, playersView_row_count [("Richmond", "Carlton")] 0 (by decide)⟩

/-- C10 code bug: the player `id` is NOT globally unique.  The id formula
`range(22) + match_index * 22 * 2` never mentions the side, so the home
roster and the away roster of the same match receive the identical id block:
in a one-match schedule, row 0 (a Richmond home player) and row 22 (a
Carlton away player) are distinct rows that both carry `id = 0`. -/
theorem player_id_duplicated_across_sides :
    (playersView [("Richmond", "Carlton")]).length = 44 ∧
    ((playersView [("Richmond", "Carlton")]).get? 0).map
      (fun pr => (pr.id, pr.playing_for)) = some (0, "Richmond") ∧
    ((playersView [("Richmond", "Carlton")]).get? 22).map
      (fun pr => (pr.id, pr.playing_for)) = some (0, "Carlton") := by
  refine ⟨by decide, by decide, by decide⟩

end Candystore
